import Mathlib

/-!
Shallow embedding of `zmq_plugin/schema.py`: the message schema, the
pre-built Draft-4 validators, the content codec and the four message
builders, together with theorems settling the stated properties.

Python values are modelled by `PyValue`; Python exceptions by `PyErr`;
fallible Python functions return `Except PyErr PyValue`.  External
library calls are modelled as follows:

* `cPickle.dumps` / `cPickle.loads`: an injective serialization of
  `PyValue` into `String` with a matching deserializer (`pickleDumps`,
  `pickleLoads`).
* `yaml.dumps` / `yaml.loads`: the `yaml` module (PyYAML) exposes
  `dump` / `load`; it has no attributes `dumps` / `loads`, so both calls
  raise `AttributeError` at run time.  They are embedded as that error.
* `json.loads`: the name `json` is never imported in `schema.py`, so the
  call raises `NameError`.  It is embedded as that error.
* `jsonschema.Draft4Validator.validate`: the fixed schemas of
  `MESSAGE_SCHEMA` are translated, constraint by constraint, into
  boolean checkers, following Draft-4 semantics (`properties` and
  `required` only constrain object instances; `type`, `enum` constrain
  every instance; `allOf` is conjunction; booleans are not numbers).
-/

/-- Model of a Python value (the subset carried by these messages). -/
inductive PyValue where
  | pyNone
  | pyBool (b : Bool)
  | pyInt (n : Int)
  | pyStr (s : String)
  | pyList (xs : List PyValue)
  | pyDict (entries : List (String × PyValue))

mutual
/-- Decidable equality on `PyValue` (hand-rolled: the nested occurrences of
`List` keep the derive handler from producing it). -/
def pvDecEq : (a b : PyValue) → Decidable (a = b)
  | .pyNone, .pyNone => isTrue rfl
  | .pyBool a, .pyBool b =>
    match decEq a b with
    | isTrue h => isTrue (by rw [h])
    | isFalse h => isFalse (by intro hh; cases hh; exact h rfl)
  | .pyInt a, .pyInt b =>
    match decEq a b with
    | isTrue h => isTrue (by rw [h])
    | isFalse h => isFalse (by intro hh; cases hh; exact h rfl)
  | .pyStr a, .pyStr b =>
    match decEq a b with
    | isTrue h => isTrue (by rw [h])
    | isFalse h => isFalse (by intro hh; cases hh; exact h rfl)
  | .pyList a, .pyList b =>
    match pvListDecEq a b with
    | isTrue h => isTrue (by rw [h])
    | isFalse h => isFalse (by intro hh; cases hh; exact h rfl)
  | .pyDict a, .pyDict b =>
    match pvPairsDecEq a b with
    | isTrue h => isTrue (by rw [h])
    | isFalse h => isFalse (by intro hh; cases hh; exact h rfl)
  | .pyNone, .pyBool _ => isFalse (by intro h; cases h)
  | .pyNone, .pyInt _ => isFalse (by intro h; cases h)
  | .pyNone, .pyStr _ => isFalse (by intro h; cases h)
  | .pyNone, .pyList _ => isFalse (by intro h; cases h)
  | .pyNone, .pyDict _ => isFalse (by intro h; cases h)
  | .pyBool _, .pyNone => isFalse (by intro h; cases h)
  | .pyBool _, .pyInt _ => isFalse (by intro h; cases h)
  | .pyBool _, .pyStr _ => isFalse (by intro h; cases h)
  | .pyBool _, .pyList _ => isFalse (by intro h; cases h)
  | .pyBool _, .pyDict _ => isFalse (by intro h; cases h)
  | .pyInt _, .pyNone => isFalse (by intro h; cases h)
  | .pyInt _, .pyBool _ => isFalse (by intro h; cases h)
  | .pyInt _, .pyStr _ => isFalse (by intro h; cases h)
  | .pyInt _, .pyList _ => isFalse (by intro h; cases h)
  | .pyInt _, .pyDict _ => isFalse (by intro h; cases h)
  | .pyStr _, .pyNone => isFalse (by intro h; cases h)
  | .pyStr _, .pyBool _ => isFalse (by intro h; cases h)
  | .pyStr _, .pyInt _ => isFalse (by intro h; cases h)
  | .pyStr _, .pyList _ => isFalse (by intro h; cases h)
  | .pyStr _, .pyDict _ => isFalse (by intro h; cases h)
  | .pyList _, .pyNone => isFalse (by intro h; cases h)
  | .pyList _, .pyBool _ => isFalse (by intro h; cases h)
  | .pyList _, .pyInt _ => isFalse (by intro h; cases h)
  | .pyList _, .pyStr _ => isFalse (by intro h; cases h)
  | .pyList _, .pyDict _ => isFalse (by intro h; cases h)
  | .pyDict _, .pyNone => isFalse (by intro h; cases h)
  | .pyDict _, .pyBool _ => isFalse (by intro h; cases h)
  | .pyDict _, .pyInt _ => isFalse (by intro h; cases h)
  | .pyDict _, .pyStr _ => isFalse (by intro h; cases h)
  | .pyDict _, .pyList _ => isFalse (by intro h; cases h)

/-- Decidable equality on lists of `PyValue`. -/
def pvListDecEq : (a b : List PyValue) → Decidable (a = b)
  | [], [] => isTrue rfl
  | [], _ :: _ => isFalse (by intro h; cases h)
  | _ :: _, [] => isFalse (by intro h; cases h)
  | x :: xs, y :: ys =>
    match pvDecEq x y, pvListDecEq xs ys with
    | isTrue h1, isTrue h2 => isTrue (by rw [h1, h2])
    | isFalse h1, _ => isFalse (by intro hh; cases hh; exact h1 rfl)
    | _, isFalse h2 => isFalse (by intro hh; cases hh; exact h2 rfl)

/-- Decidable equality on association lists over `PyValue`. -/
def pvPairsDecEq : (a b : List (String × PyValue)) → Decidable (a = b)
  | [], [] => isTrue rfl
  | [], _ :: _ => isFalse (by intro h; cases h)
  | _ :: _, [] => isFalse (by intro h; cases h)
  | (k, x) :: xs, (l, y) :: ys =>
    match decEq k l, pvDecEq x y, pvPairsDecEq xs ys with
    | isTrue h0, isTrue h1, isTrue h2 => isTrue (by rw [h0, h1, h2])
    | isFalse h0, _, _ => isFalse (by intro hh; cases hh; exact h0 rfl)
    | _, isFalse h1, _ => isFalse (by intro hh; cases hh; exact h1 rfl)
    | _, _, isFalse h2 => isFalse (by intro hh; cases hh; exact h2 rfl)
end

instance : DecidableEq PyValue := pvDecEq

/-- Model of the Python exceptions this module can raise. -/
inductive PyErr where
  | validationError (schemaName : String)
  | keyError (key : String)
  | typeError (msg : String)
  | attributeError (msg : String)
  | nameError (missing : String)
  | valueError (msg : String)
  | runtimeError (v : PyValue)
  deriving DecidableEq

instance {ε α : Type} [DecidableEq ε] [DecidableEq α] : DecidableEq (Except ε α) :=
  fun a b =>
    match a, b with
    | .ok x, .ok y =>
      match decEq x y with
      | isTrue h => isTrue (by rw [h])
      | isFalse h => isFalse (by intro hh; cases hh; exact h rfl)
    | .error e, .error f =>
      match decEq e f with
      | isTrue h => isTrue (by rw [h])
      | isFalse h => isFalse (by intro hh; cases hh; exact h rfl)
    | .ok _, .error _ => isFalse (by intro h; cases h)
    | .error _, .ok _ => isFalse (by intro h; cases h)

/-- First-match association lookup: Python `dict` access on our ordered model. -/
def dlookup : List (String × PyValue) → String → Option PyValue
  | [], _ => none
  | (k, v) :: rest, key => if key = k then some v else dlookup rest key

/-- Python `d[key] = v`: replace the binding when present, else append. -/
def dictSet : List (String × PyValue) → String → PyValue → List (String × PyValue)
  | [], key, v => [(key, v)]
  | (k, w) :: rest, key, v =>
    if k = key then (k, v) :: rest else (k, w) :: dictSet rest key v

/-- Python `d.update(other)`. -/
def dictUpdate (d : List (String × PyValue)) (other : List (String × PyValue)) :
    List (String × PyValue) :=
  other.foldl (fun acc kv => dictSet acc kv.1 kv.2) d

/-- Remove a key from a dict (used to state the required-field properties). -/
def dictRemove : List (String × PyValue) → String → List (String × PyValue)
  | [], _ => []
  | (k, v) :: rest, key =>
    if k = key then dictRemove rest key else (k, v) :: dictRemove rest key

/-- Python `m[key]` for a string key: `KeyError` when missing, `TypeError`
when the value is not a dict. -/
def pyGet (m : PyValue) (key : String) : Except PyErr PyValue :=
  match m with
  | .pyDict d =>
    match dlookup d key with
    | some v => .ok v
    | none => .error (.keyError key)
  | _ => .error (.typeError "object is not subscriptable")

/-- Two chained subscript accesses, `m[k1][k2]`. -/
def pyGet2 (m : PyValue) (k1 k2 : String) : Except PyErr PyValue :=
  match pyGet m k1 with
  | .ok v => pyGet v k2
  | .error e => .error e

/-- Python `m.get(key, dflt)`: `AttributeError` when `m` is not a dict. -/
def pyAttrGetD (m : PyValue) (key : String) (dflt : PyValue) : Except PyErr PyValue :=
  match m with
  | .pyDict d =>
    match dlookup d key with
    | some v => .ok v
    | none => .ok dflt
  | _ => .error (.attributeError "object has no attribute get")

/-- Python truthiness, as used by `session or str(uuid.uuid4())`. -/
def pyTruthy : PyValue → Bool
  | .pyNone => false
  | .pyBool b => b
  | .pyInt n => n != 0
  | .pyStr s => s ≠ ""
  | .pyList xs => ¬ xs.isEmpty
  | .pyDict d => ¬ d.isEmpty

mutual
/-- Model of Python `str(v)` (string formatting of nested containers is
simplified; only the scalar cases are relied on). -/
def pyStrOf : PyValue → String
  | .pyNone => "None"
  | .pyBool true => "True"
  | .pyBool false => "False"
  | .pyInt n => toString n
  | .pyStr s => s
  | .pyList xs => "[" ++ pyStrOfList xs ++ "]"
  | .pyDict d => "\x7b" ++ pyStrOfPairs d ++ "\x7d"

def pyStrOfList : List PyValue → String
  | [] => ""
  | [v] => pyStrOf v
  | v :: rest => pyStrOf v ++ ", " ++ pyStrOfList rest

def pyStrOfPairs : List (String × PyValue) → String
  | [] => ""
  | [(k, v)] => k ++ ": " ++ pyStrOf v
  | (k, v) :: rest => k ++ ": " ++ pyStrOf v ++ ", " ++ pyStrOfPairs rest
end

/-- Draft-4 `type: string`. -/
def isStr : PyValue → Bool
  | .pyStr _ => true
  | _ => false

/-- Draft-4 `type: object`. -/
def isObj : PyValue → Bool
  | .pyDict _ => true
  | _ => false

/-- Draft-4 `type: boolean`. -/
def isBool : PyValue → Bool
  | .pyBool _ => true
  | _ => false

/-- Draft-4 `type: number` (Python booleans are excluded by `jsonschema`). -/
def isNum : PyValue → Bool
  | .pyInt _ => true
  | _ => false

/-- Draft-4 `type: array`. -/
def isArr : PyValue → Bool
  | .pyList _ => true
  | _ => false

/-- One `properties` entry: the constraint applies only when the key is present. -/
def checkProp (d : List (String × PyValue)) (key : String) (p : PyValue → Bool) : Bool :=
  match dlookup d key with
  | some v => p v
  | none => true

/-- Key presence, for `required`. -/
def hasKey (d : List (String × PyValue)) (key : String) : Bool :=
  (dlookup d key).isSome

/-- Draft-4 `required` applied to an object instance. -/
def hasAllKeys (d : List (String × PyValue)) (keys : List String) : Bool :=
  keys.all (hasKey d)

/-- The `msg_type` enumeration of `MESSAGE_SCHEMA.definitions.header`. -/
def msgTypeEnum : List String :=
  ["connect_request", "connect_reply", "execute_request", "execute_reply"]

/-- The `version` enumeration of `MESSAGE_SCHEMA.definitions.header`. -/
def versionEnum : List String := ["0.2", "0.3"]

/-- Draft-4 `enum` over string constants: the instance equals one of the
listed values (a non-string instance equals none of them). -/
def strEnum : List String → PyValue → Bool
  | [], _ => false
  | t :: rest, v => if v = .pyStr t then true else strEnum rest v

/-- `MESSAGE_SCHEMA.definitions.header`: an object with seven required,
string-typed fields, `msg_type` and `version` restricted to their enums. -/
def validHeader (v : PyValue) : Bool :=
  match v with
  | .pyDict d =>
    checkProp d "msg_id" isStr &&
    checkProp d "session" isStr &&
    checkProp d "date" isStr &&
    checkProp d "source" isStr &&
    checkProp d "target" isStr &&
    checkProp d "msg_type" (fun w => isStr w && strEnum msgTypeEnum w) &&
    checkProp d "version" (fun w => isStr w && strEnum versionEnum w) &&
    hasAllKeys d ["msg_id", "session", "date", "source", "target", "msg_type", "version"]
  | _ => false

/-- `MESSAGE_SCHEMA.definitions.base_message`: object, `header` required and a
valid header, `parent_header` a valid header when present, `metadata` and
`content` objects when present. -/
def validBaseMessage (v : PyValue) : Bool :=
  match v with
  | .pyDict d =>
    checkProp d "header" validHeader &&
    checkProp d "parent_header" validHeader &&
    checkProp d "metadata" isObj &&
    checkProp d "content" isObj &&
    hasAllKeys d ["header"]
  | _ => false

/-- `MESSAGE_SCHEMA.definitions.error`: no `type` keyword, so in Draft-4 its
`properties` and `required` constrain only object instances. -/
def validErrorObj (v : PyValue) : Bool :=
  match v with
  | .pyDict d =>
    checkProp d "ename" isStr &&
    checkProp d "evalue" isStr &&
    checkProp d "traceback" isArr &&
    hasAllKeys d ["ename"]
  | _ => true

/-- The `content` schema inside `definitions.execute_request`. -/
def validExecuteRequestContent (v : PyValue) : Bool :=
  match v with
  | .pyDict d =>
    checkProp d "command" isStr &&
    checkProp d "metadata" isObj &&
    checkProp d "silent" isBool &&
    checkProp d "stop_on_error" isBool &&
    hasAllKeys d ["command"]
  | _ => false

/-- The `content` schema inside `definitions.execute_reply`. -/
def validExecuteReplyContent (v : PyValue) : Bool :=
  match v with
  | .pyDict d =>
    checkProp d "command" isStr &&
    checkProp d "status" (fun w => isStr w && strEnum ["ok", "error", "abort"] w) &&
    checkProp d "execution_count" isNum &&
    checkProp d "metadata" isObj &&
    checkProp d "error" validErrorObj &&
    hasAllKeys d ["command", "status", "execution_count"]
  | _ => false

/-- The `content.command` schema inside `definitions.connect_reply`. -/
def validConnectReplyCommand (v : PyValue) : Bool :=
  match v with
  | .pyDict d =>
    checkProp d "uri" isStr &&
    checkProp d "port" isNum &&
    checkProp d "name" isStr &&
    hasAllKeys d ["uri", "port", "name"]
  | _ => false

/-- The `content.publish` schema inside `definitions.connect_reply`. -/
def validConnectReplyPublish (v : PyValue) : Bool :=
  match v with
  | .pyDict d =>
    checkProp d "uri" isStr &&
    checkProp d "port" isNum &&
    hasAllKeys d ["uri", "port"]
  | _ => false

/-- The `content` schema inside `definitions.connect_reply`. -/
def validConnectReplyContent (v : PyValue) : Bool :=
  match v with
  | .pyDict d =>
    checkProp d "command" validConnectReplyCommand &&
    checkProp d "publish" validConnectReplyPublish &&
    hasAllKeys d ["command", "publish"]
  | _ => false

/-- A branch of an `allOf` holding only a `properties.content` entry: in
Draft-4 it constrains `content` only when the instance is an object with the
key present. -/
def contentPropCheck (m : PyValue) (p : PyValue → Bool) : Bool :=
  match m with
  | .pyDict d => checkProp d "content" p
  | _ => true

/-- A definition-level `required` list (ignored on non-objects in Draft-4). -/
def topRequired (m : PyValue) (keys : List String) : Bool :=
  match m with
  | .pyDict d => hasAllKeys d keys
  | _ => true

/-- `definitions.connect_request`: just the base message. -/
def validConnectRequest (m : PyValue) : Bool :=
  validBaseMessage m

/-- `definitions.connect_reply`: base message, content constraints, and
`required: [content, parent_header]`. -/
def validConnectReply (m : PyValue) : Bool :=
  validBaseMessage m &&
  contentPropCheck m validConnectReplyContent &&
  topRequired m ["content", "parent_header"]

/-- `definitions.execute_request`: base message plus content constraints
(`content` itself is not required at the top of this definition). -/
def validExecuteRequest (m : PyValue) : Bool :=
  validBaseMessage m &&
  contentPropCheck m validExecuteRequestContent

/-- `definitions.execute_reply`: base message, content constraints, and
`required: [content]`. -/
def validExecuteReply (m : PyValue) : Bool :=
  validBaseMessage m &&
  contentPropCheck m validExecuteReplyContent &&
  topRequired m ["content"]

/-- `MESSAGE_VALIDATORS`: one pre-built checker per key in
`['base_message'] + msg_type enum`; `none` models a failed dict lookup. -/
def messageValidatorFor (tag : String) : Option (PyValue → Bool) :=
  if tag = "base_message" then some validBaseMessage
  else if tag = "connect_request" then some validConnectRequest
  else if tag = "connect_reply" then some validConnectReply
  else if tag = "execute_request" then some validExecuteRequest
  else if tag = "execute_reply" then some validExecuteReply
  else none

/-- `validate(message)`: check the base schema, then look up
`message['header']['msg_type']` and check that type's schema; the message is
returned unchanged on success. -/
def validate (message : PyValue) : Except PyErr PyValue :=
  if validBaseMessage message then
    match pyGet message "header" with
    | .error e => .error e
    | .ok hdr =>
      match pyGet hdr "msg_type" with
      | .error e => .error e
      | .ok mt =>
        match mt with
        | .pyStr tag =>
          match messageValidatorFor tag with
          | some check =>
            if check message then .ok message else .error (.validationError tag)
          | none => .error (.keyError tag)
        | _ => .error (.keyError (pyStrOf mt))
  else .error (.validationError "base_message")

mutual
/-- Model of `cPickle.dumps`: an injective textual serialization of the
value model (the exact wire bytes of `cPickle` are opaque here; only the
existence of a serialize/deserialize pair is relied upon). -/
def pickleDumps : PyValue → String
  | .pyNone => "N."
  | .pyBool true => "T."
  | .pyBool false => "F."
  | .pyInt n => "I" ++ toString n ++ "."
  | .pyStr s => "S" ++ toString s.length ++ ":" ++ s
  | .pyList xs => "L" ++ toString xs.length ++ ":" ++ pickleDumpsList xs
  | .pyDict d => "D" ++ toString d.length ++ ":" ++ pickleDumpsPairs d

def pickleDumpsList : List PyValue → String
  | [] => ""
  | v :: rest => pickleDumps v ++ pickleDumpsList rest

def pickleDumpsPairs : List (String × PyValue) → String
  | [] => ""
  | (k, v) :: rest => "S" ++ toString k.length ++ ":" ++ k ++ pickleDumps v ++ pickleDumpsPairs rest
end

/-- Consume leading decimal digits. -/
def parseDigits : List Char → Nat → Nat × List Char
  | [], acc => (acc, [])
  | c :: cs, acc =>
    if c.isDigit then parseDigits cs (acc * 10 + (c.toNat - 48)) else (acc, c :: cs)

mutual
/-- Fueled deserializer matching `pickleDumps` (model of `cPickle.loads`). -/
def pickleParse : Nat → List Char → Except PyErr (PyValue × List Char)
  | 0, _ => .error (.valueError "unpickling failed")
  | _ + 1, [] => .error (.valueError "unpickling failed")
  | fuel + 1, c :: cs =>
    if c = 'N' then
      match cs with
      | '.' :: rest => .ok (.pyNone, rest)
      | _ => .error (.valueError "unpickling failed")
    else if c = 'T' then
      match cs with
      | '.' :: rest => .ok (.pyBool true, rest)
      | _ => .error (.valueError "unpickling failed")
    else if c = 'F' then
      match cs with
      | '.' :: rest => .ok (.pyBool false, rest)
      | _ => .error (.valueError "unpickling failed")
    else if c = 'I' then
      match cs with
      | '-' :: cs2 =>
        match parseDigits cs2 0 with
        | (n, '.' :: rest) => .ok (.pyInt (-(n : Int)), rest)
        | _ => .error (.valueError "unpickling failed")
      | _ =>
        match parseDigits cs 0 with
        | (n, '.' :: rest) => .ok (.pyInt (n : Int), rest)
        | _ => .error (.valueError "unpickling failed")
    else if c = 'S' then
      match parseDigits cs 0 with
      | (n, ':' :: rest) => .ok (.pyStr (String.mk (rest.take n)), rest.drop n)
      | _ => .error (.valueError "unpickling failed")
    else if c = 'L' then
      match parseDigits cs 0 with
      | (n, ':' :: rest) =>
        match pickleParseMany fuel n rest with
        | .ok (vs, rest2) => .ok (.pyList vs, rest2)
        | .error e => .error e
      | _ => .error (.valueError "unpickling failed")
    else if c = 'D' then
      match parseDigits cs 0 with
      | (n, ':' :: rest) =>
        match pickleParsePairs fuel n rest with
        | .ok (ps, rest2) => .ok (.pyDict ps, rest2)
        | .error e => .error e
      | _ => .error (.valueError "unpickling failed")
    else .error (.valueError "unpickling failed")

def pickleParseMany : Nat → Nat → List Char → Except PyErr (List PyValue × List Char)
  | _, 0, cs => .ok ([], cs)
  | 0, _ + 1, _ => .error (.valueError "unpickling failed")
  | fuel + 1, n + 1, cs =>
    match pickleParse fuel cs with
    | .ok (v, rest) =>
      match pickleParseMany fuel n rest with
      | .ok (vs, rest2) => .ok (v :: vs, rest2)
      | .error e => .error e
    | .error e => .error e

def pickleParsePairs : Nat → Nat → List Char → Except PyErr (List (String × PyValue) × List Char)
  | _, 0, cs => .ok ([], cs)
  | 0, _ + 1, _ => .error (.valueError "unpickling failed")
  | fuel + 1, n + 1, cs =>
    match cs with
    | 'S' :: cs2 =>
      match parseDigits cs2 0 with
      | (kl, ':' :: rest) =>
        let key := String.mk (rest.take kl)
        match pickleParse fuel (rest.drop kl) with
        | .ok (v, rest2) =>
          match pickleParsePairs fuel n rest2 with
          | .ok (ps, rest3) => .ok ((key, v) :: ps, rest3)
          | .error e => .error e
        | .error e => .error e
      | _ => .error (.valueError "unpickling failed")
    | _ => .error (.valueError "unpickling failed")
end

/-- Model of `cPickle.loads` on a string produced by `str(data)`. -/
def pickleLoads (s : String) : Except PyErr PyValue :=
  match pickleParse (s.length + 1) s.data with
  | .ok (v, []) => .ok v
  | .ok _ => .error (.valueError "unpickling failed")
  | .error e => .error e

/-- `encode_content_data(data, mime_type)`, producing the entries of the
returned `content` dict.  The branch structure follows the source: with
absent (`None`) data nothing at all is added; `cPickle.dumps` serializes for
the native format; the call `yaml.dumps(data)` raises `AttributeError`
because PyYAML has no `dumps` attribute; `None`, octet-stream, JSON and
plain-text formats pass the data through; any other format sets no data key;
finally `metadata.mime_type` is stamped whenever the format is not `None`. -/
def encodeContentList (data : PyValue) (mimeType : Option String) :
    Except PyErr (List (String × PyValue)) :=
  if data = .pyNone then .ok []
  else
    let step1 : Except PyErr (List (String × PyValue)) :=
      if mimeType = some "application/python-pickle" then
        .ok [("data", .pyStr (pickleDumps data))]
      else if mimeType = some "application/x-yaml" then
        .error (.attributeError "module yaml has no attribute dumps")
      else if mimeType = none ∨ mimeType = some "application/octet-stream" ∨
          mimeType = some "application/json" ∨ mimeType = some "text/plain" then
        .ok [("data", data)]
      else
        .ok []
    match step1 with
    | .error e => .error e
    | .ok content =>
      match mimeType with
      | some m => .ok (dictSet content "metadata" (.pyDict [("mime_type", .pyStr m)]))
      | none => .ok content

/-- `encode_content_data` packaged as the Python dict it returns. -/
def encode_content_data (data : PyValue) (mimeType : Option String) :
    Except PyErr PyValue :=
  match encodeContentList data mimeType with
  | .ok content => .ok (.pyDict content)
  | .error e => .error e

/-- `decode_content_data(message)`: validate, fail on a set `content.error`,
read the mime type from `content.metadata` (native pickle by default), pass
`None` data through, and dispatch on the mime type.  The YAML branch calls
`yaml.loads`, absent from PyYAML (`AttributeError`); the JSON branch calls
`json.loads` with `json` never imported in `schema.py` (`NameError`). -/
def decode_content_data (message : PyValue) : Except PyErr PyValue :=
  match validate message with
  | .error e => .error e
  | .ok _ =>
    match pyGet message "content" with
    | .error e => .error e
    | .ok content =>
      match pyAttrGetD content "error" .pyNone with
      | .error e => .error e
      | .ok err =>
        if err ≠ .pyNone then .error (.runtimeError err)
        else
          match pyAttrGetD content "metadata" .pyNone with
          | .error e => .error e
          | .ok metadata =>
            match
              (if metadata ≠ .pyNone then
                pyAttrGetD metadata "mime_type" (.pyStr "application/python-pickle")
              else .ok (.pyStr "application/python-pickle")) with
            | .error e => .error e
            | .ok mime =>
              match pyAttrGetD content "data" .pyNone with
              | .error e => .error e
              | .ok data =>
                if data = .pyNone then .ok .pyNone
                else if mime = .pyStr "application/python-pickle" then
                  pickleLoads (pyStrOf data)
                else if mime = .pyStr "application/x-yaml" then
                  .error (.attributeError "module yaml has no attribute loads")
                else if mime = .pyStr "application/json" then
                  .error (.nameError "json")
                else if mime = .pyStr "application/octet-stream" ∨ mime = .pyStr "text/plain" then
                  .ok data
                else
                  .error (.valueError ("Unrecognized mime-type: " ++ pyStrOf mime))

/-- `get_header(source, target, message_type, session=None)`: fresh values
produced by `uuid.uuid4()` and `datetime.now().isoformat()` are passed in
explicitly as `freshMsgId`, `freshSession` and `dateNow`; `session or
str(uuid.uuid4())` falls back to the fresh session exactly when the given
session is falsy. -/
def get_header (source target : PyValue) (messageType : String) (session : PyValue)
    (freshMsgId freshSession dateNow : String) : PyValue :=
  .pyDict [("msg_id", .pyStr freshMsgId),
           ("session", if pyTruthy session then session else .pyStr freshSession),
           ("date", .pyStr dateNow),
           ("source", source),
           ("target", target),
           ("msg_type", .pyStr messageType),
           ("version", .pyStr "0.3")]

/-- `get_connect_request(source, target)`. -/
def get_connect_request (source target : String)
    (freshMsgId freshSession dateNow : String) : PyValue :=
  .pyDict [("header",
    get_header (.pyStr source) (.pyStr target) "connect_request" .pyNone
      freshMsgId freshSession dateNow)]

/-- `get_connect_reply(request, content)`: the header swaps the request
header's `source` and `target`, reuses its `session`, and the request header
becomes `parent_header`; `content` is passed through verbatim. -/
def get_connect_reply (request content : PyValue)
    (freshMsgId freshSession dateNow : String) : Except PyErr PyValue :=
  match pyGet request "header" with
  | .error e => .error e
  | .ok hdr =>
    match pyGet hdr "target" with
    | .error e => .error e
    | .ok tgt =>
      match pyGet hdr "source" with
      | .error e => .error e
      | .ok src =>
        match pyGet hdr "session" with
        | .error e => .error e
        | .ok sess =>
          .ok (.pyDict
            [("header", get_header tgt src "connect_reply" sess freshMsgId freshSession dateNow),
             ("parent_header", hdr),
             ("content", content)])

/-- `get_execute_request(source, target, command, ...)`: base content
`command`/`silent`/`stop_on_error` updated with the encoded data fragment. -/
def get_execute_request (source target command : String) (data : PyValue)
    (mimeType : Option String) (silent stopOnError : Bool)
    (freshMsgId freshSession dateNow : String) : Except PyErr PyValue :=
  let header := get_header (.pyStr source) (.pyStr target) "execute_request" .pyNone
    freshMsgId freshSession dateNow
  match encodeContentList data mimeType with
  | .error e => .error e
  | .ok frag =>
    .ok (.pyDict
      [("header", header),
       ("content", .pyDict (dictUpdate
         [("command", .pyStr command), ("silent", .pyBool silent),
          ("stop_on_error", .pyBool stopOnError)] frag))])

/-- `get_execute_reply(request, execution_count, status, error, data,
mime_type)`: the header is derived first (swap `source`/`target`, reuse the
request's `session`); then `status == 'error' and error is None` raises
`ValueError`; the content is built from `execution_count`, `status` and the
request's `command`, updated with the encoded data fragment; a provided
`error` is stamped as `str(error)` last. -/
def get_execute_reply (request : PyValue) (executionCount : Int) (status : String)
    (error : Option PyValue) (data : PyValue) (mimeType : Option String)
    (freshMsgId freshSession dateNow : String) : Except PyErr PyValue :=
  match pyGet request "header" with
  | .error e => .error e
  | .ok hdr =>
  match pyGet hdr "target" with
  | .error e => .error e
  | .ok tgt =>
  match pyGet hdr "source" with
  | .error e => .error e
  | .ok src =>
  match pyGet hdr "session" with
  | .error e => .error e
  | .ok sess =>
  let header := get_header tgt src "execute_reply" sess freshMsgId freshSession dateNow
  if status = "error" ∧ error = none then
    .error (.valueError "If status is \"error\", `error` must be provided.")
  else
    match pyGet request "content" with
    | .error e => .error e
    | .ok reqContent =>
    match pyGet reqContent "command" with
    | .error e => .error e
    | .ok cmd =>
    match encodeContentList data mimeType with
    | .error e => .error e
    | .ok frag =>
    let content := dictUpdate
      [("execution_count", .pyInt executionCount), ("status", .pyStr status),
       ("command", cmd)] frag
    let content2 :=
      match error with
      | some err => dictSet content "error" (.pyStr (pyStrOf err))
      | none => content
    .ok (.pyDict [("header", header), ("parent_header", hdr), ("content", .pyDict content2)])

/-- Drop one key from a message's `content` dict (used to state the
required-field properties). -/
def removeContentKey (m : PyValue) (key : String) : PyValue :=
  match m with
  | .pyDict d =>
    match dlookup d "content" with
    | some (.pyDict c) => .pyDict (dictSet d "content" (.pyDict (dictRemove c key)))
    | _ => m
  | _ => m

/-- Whether `validate` raises on the message. -/
def failsValidation (m : PyValue) : Bool :=
  match validate m with
  | .error _ => true
  | .ok _ => false

/-- Extract the payload of a successful call (used to name concrete built
messages). -/
def okValueOr (r : Except PyErr PyValue) (dflt : PyValue) : PyValue :=
  match r with
  | .ok v => v
  | .error _ => dflt

/-- A schema-valid header literal for concrete test messages. -/
def mkTestHeader (msgType version sessionVal : String) : PyValue :=
  .pyDict [("msg_id", .pyStr "test-id"), ("session", .pyStr sessionVal),
           ("date", .pyStr "2015-01-01T00:00:00"), ("source", .pyStr "clientA"),
           ("target", .pyStr "pluginB"), ("msg_type", .pyStr msgType),
           ("version", .pyStr version)]

/-- The payload used for the JSON round-trip evaluation. -/
def c1Payload : PyValue := .pyDict [("a", .pyInt 1)]

/-- A schema-valid `execute_request` whose content is the base content updated
with `encode_content_data(c1Payload, 'application/json')`. -/
def c1Message : PyValue :=
  .pyDict [("header", mkTestHeader "execute_request" "0.3" "sess-1"),
           ("content", .pyDict (dictUpdate [("command", .pyStr "add")]
             (match encodeContentList c1Payload (some "application/json") with
              | .ok frag => frag
              | .error _ => [])))]

/-- Minimal `connect_request` built by its builder. -/
def c2ConnectRequest : PyValue :=
  get_connect_request "clientA" "pluginB" "cr-id" "cr-sess" "cr-date"

/-- Minimal valid `connect_reply` content (hub command and publish ports). -/
def c2ConnectReplyContent : PyValue :=
  .pyDict [("command", .pyDict [("uri", .pyStr "tcp://x"), ("port", .pyInt 5555),
                                ("name", .pyStr "hub")]),
           ("publish", .pyDict [("uri", .pyStr "tcp://x"), ("port", .pyInt 5556)])]

/-- The `connect_reply` built from `c2ConnectRequest`. -/
def c2ConnectReply : PyValue :=
  okValueOr (get_connect_reply c2ConnectRequest c2ConnectReplyContent
    "crep-id" "crep-sess" "crep-date") .pyNone

/-- Minimal `execute_request` built by its builder (no data payload). -/
def c2ExecuteRequest : PyValue :=
  okValueOr (get_execute_request "clientA" "pluginB" "go" .pyNone
    (some "application/python-pickle") false false "er-id" "er-sess" "er-date") .pyNone

/-- The `execute_reply` built from `c2ExecuteRequest`. -/
def c2ExecuteReply : PyValue :=
  okValueOr (get_execute_reply c2ExecuteRequest 1 "ok" none .pyNone
    (some "application/python-pickle") "erep-id" "erep-sess" "erep-date") .pyNone

/-- A message valid except for its unknown `msg_type`. -/
def c3BogusMessage : PyValue :=
  .pyDict [("header", mkTestHeader "bogus_type" "0.3" "sess-3")]

/-- An otherwise-valid message carrying the known version tag `0.3`. -/
def c4Version03 : PyValue :=
  .pyDict [("header", mkTestHeader "connect_request" "0.3" "sess-4")]

/-- The same message with the unknown version tag `0.9`. -/
def c4Version09 : PyValue :=
  .pyDict [("header", mkTestHeader "connect_request" "0.9" "sess-4")]

/-- A schema-valid `execute_request` whose header session is the empty string
(the header schema only requires a string). -/
def c5Request : PyValue :=
  .pyDict [("header", mkTestHeader "execute_request" "0.3" ""),
           ("content", .pyDict [("command", .pyStr "go")])]

/-- The reply built from `c5Request` with fresh identifiers. -/
def c5Reply : PyValue :=
  okValueOr (get_execute_reply c5Request 1 "ok" none .pyNone
    (some "application/python-pickle") "fresh-id" "fresh-session" "now") .pyNone

/-- A schema-valid `execute_request` used to exercise `get_execute_reply`. -/
def c6Request : PyValue :=
  .pyDict [("header", mkTestHeader "execute_request" "0.3" "sess-6"),
           ("content", .pyDict [("command", .pyStr "go")])]

/-- The content of `c7Message`: a reported error next to data under an
unrecognized mime type. -/
def c7Content : PyValue :=
  .pyDict [("command", .pyStr "c"), ("status", .pyStr "error"),
           ("execution_count", .pyInt 1), ("error", .pyStr "boom"),
           ("data", .pyStr "zz"),
           ("metadata", .pyDict [("mime_type", .pyStr "application/x-unknown")])]

/-- A schema-valid `execute_reply` whose content reports an error. -/
def c7Message : PyValue :=
  .pyDict [("header", mkTestHeader "execute_reply" "0.3" "sess-7"),
           ("content", c7Content)]

/-- The content of `c8Message`: data present under an unrecognized mime type,
no error. -/
def c8Content : PyValue :=
  .pyDict [("command", .pyStr "c"), ("data", .pyStr "zz"),
           ("metadata", .pyDict [("mime_type", .pyStr "application/x-unknown")])]

/-- A schema-valid `execute_request` carrying data under an unrecognized
mime type. -/
def c8Message : PyValue :=
  .pyDict [("header", mkTestHeader "execute_request" "0.3" "sess-8"),
           ("content", c8Content)]

/-- A bare content fragment: not an envelope, fails base validation. -/
def c10Fragment : PyValue :=
  .pyDict [("content", .pyDict [("error", .pyStr "x")])]

/-- A successful subscript access decomposes the receiver into a dict with a
successful lookup. -/
theorem pyGet_ok {m : PyValue} {k : String} {v : PyValue} (h : pyGet m k = .ok v) :
    ∃ d, m = .pyDict d ∧ dlookup d k = some v := by
  cases m with
  | pyDict d =>
    refine ⟨d, rfl, ?_⟩
    cases hl : dlookup d k with
    | some w =>
      simp only [pyGet, hl] at h
      cases h
      rfl
    | none => simp [pyGet, hl] at h
  | pyNone => simp [pyGet] at h
  | pyBool b => simp [pyGet] at h
  | pyInt n => simp [pyGet] at h
  | pyStr s => simp [pyGet] at h
  | pyList xs => simp [pyGet] at h

/-- An instance different from each listed string is outside the enum. -/
theorem strEnum_eq_false {vals : List String} {v : PyValue}
    (h : ∀ t ∈ vals, v ≠ .pyStr t) : strEnum vals v = false := by
  induction vals with
  | nil => rfl
  | cons t rest ih =>
    simp only [strEnum]
    rw [if_neg (h t (List.mem_cons_self t rest))]
    exact ih fun u hu => h u (List.mem_cons_of_mem t hu)

/-- Assignment is observable: looking up the assigned key finds the value. -/
theorem dlookup_dictSet_self (d : List (String × PyValue)) (k : String) (v : PyValue) :
    dlookup (dictSet d k v) k = some v := by
  induction d with
  | nil => simp [dictSet, dlookup]
  | cons p rest ih =>
    obtain ⟨pk, pv⟩ := p
    by_cases hk : pk = k
    · subst hk
      simp [dictSet, dlookup]
    · simp only [dictSet, if_neg hk, dlookup]
      rw [if_neg fun hh => hk hh.symm]
      exact ih

/-- Field access on a built reply envelope. -/
theorem pyGet2_reply_content (hv pv : PyValue) (c : List (String × PyValue)) (k : String) :
    pyGet2 (.pyDict [("header", hv), ("parent_header", pv), ("content", .pyDict c)])
      "content" k = pyGet (.pyDict c) k := rfl

/-- Claim C10: decoding validates first: for every message that fails schema
validation, `decode_content_data` raises exactly the validation error and
never reaches the error check, mime dispatch or deserialization. -/
theorem claim_C10_validate_before_decode (message : PyValue) (e : PyErr)
    (h : validate message = .error e) :
    decode_content_data message = .error e := by
  simp only [decode_content_data, h]

/-- Witness for C10: a bare content fragment (no header) is rejected by
validation, and decoding it surfaces that same validation error. -/
theorem claim_C10_witness :
    validate c10Fragment = .error (.validationError "base_message") ∧
    decode_content_data c10Fragment = .error (.validationError "base_message") :=
  ⟨by decide,
   claim_C10_validate_before_decode c10Fragment (.validationError "base_message") (by decide)⟩

/-- Claim C7: on every schema-valid message whose content carries a non-`None`
`error` field, `decode_content_data` raises `RuntimeError` with that value,
before any mime-type dispatch or deserialization and regardless of `data`. -/
theorem claim_C7_error_field_runtime_error (message mOk content err : PyValue)
    (hv : validate message = .ok mOk)
    (hc : pyGet message "content" = .ok content)
    (he : pyAttrGetD content "error" .pyNone = .ok err)
    (hne : err ≠ .pyNone) :
    decode_content_data message = .error (.runtimeError err) := by
  simp only [decode_content_data, hv, hc, he]
  rw [if_pos hne]

/-- Witness for C7: a valid `execute_reply` with `content.error = 'boom'`,
`data` present and an unrecognized mime type still fails with
`RuntimeError('boom')`. -/
theorem claim_C7_witness :
    validate c7Message = .ok c7Message ∧
    decode_content_data c7Message = .error (.runtimeError (.pyStr "boom")) :=
  ⟨by decide,
   claim_C7_error_field_runtime_error c7Message c7Message c7Content (.pyStr "boom")
     (by decide) (by decide) (by decide) (by decide)⟩

/-- Claim C3: an envelope whose `header.msg_type` is none of the four
recognized tags is rejected by the base-schema check — `validate` returns the
base validation error, not a lookup (`KeyError`) failure. -/
theorem claim_C3_unknown_msg_type_base_reject (m hdr mt : PyValue)
    (hH : pyGet m "header" = .ok hdr)
    (hT : pyGet hdr "msg_type" = .ok mt)
    (h1 : mt ≠ .pyStr "connect_request") (h2 : mt ≠ .pyStr "connect_reply")
    (h3 : mt ≠ .pyStr "execute_request") (h4 : mt ≠ .pyStr "execute_reply") :
    validate m = .error (.validationError "base_message") := by
  obtain ⟨d, hm, hd⟩ := pyGet_ok hH
  subst hm
  obtain ⟨d2, hh, hd2⟩ := pyGet_ok hT
  subst hh
  have henum : strEnum msgTypeEnum mt = false := by
    refine strEnum_eq_false ?_
    intro t ht
    simp only [msgTypeEnum, List.mem_cons, List.not_mem_nil, or_false] at ht
    rcases ht with rfl | rfl | rfl | rfl
    · exact h1
    · exact h2
    · exact h3
    · exact h4
  have hhdr : validHeader (.pyDict d2) = false := by
    simp only [validHeader, checkProp, hd2, henum, Bool.and_false, Bool.false_and]
  have hbase : validBaseMessage (.pyDict d) = false := by
    simp only [validBaseMessage, checkProp, hd, hhdr, Bool.false_and, Bool.and_false]
  simp [validate, hbase]

/-- Witness for C3: the tag `bogus_type` is rejected by the base check. -/
theorem claim_C3_witness :
    validate c3BogusMessage = .error (.validationError "base_message") :=
  claim_C3_unknown_msg_type_base_reject c3BogusMessage
    (mkTestHeader "bogus_type" "0.3" "sess-3") (.pyStr "bogus_type")
    (by decide) (by decide) (by decide) (by decide) (by decide) (by decide)

/-- Counterexample for C4: the claim says an otherwise-valid envelope with a
version outside the observed tags still validates; the same envelope
validates with version `0.3` but is rejected with version `0.9`. -/
theorem claim_C4_counterexample :
    validate c4Version03 = .ok c4Version03 ∧
    validate c4Version09 = .error (.validationError "base_message") := by
  decide

/-- Claim C4 (amended): `validate` rejects, at the base-schema check, every
envelope whose `header.version` differs from both `0.2` and `0.3`; the
version enum is enforced. -/
theorem claim_C4_amended_unknown_version_rejected (m hdr ver : PyValue)
    (hH : pyGet m "header" = .ok hdr)
    (hV : pyGet hdr "version" = .ok ver)
    (h2 : ver ≠ .pyStr "0.2") (h3 : ver ≠ .pyStr "0.3") :
    validate m = .error (.validationError "base_message") := by
  obtain ⟨d, hm, hd⟩ := pyGet_ok hH
  subst hm
  obtain ⟨d2, hh, hd2⟩ := pyGet_ok hV
  subst hh
  have henum : strEnum versionEnum ver = false := by
    refine strEnum_eq_false ?_
    intro t ht
    simp only [versionEnum, List.mem_cons, List.not_mem_nil, or_false] at ht
    rcases ht with rfl | rfl
    · exact h2
    · exact h3
  have hhdr : validHeader (.pyDict d2) = false := by
    simp only [validHeader, checkProp, hd2, henum, Bool.and_false, Bool.false_and]
  have hbase : validBaseMessage (.pyDict d) = false := by
    simp only [validBaseMessage, checkProp, hd, hhdr, Bool.false_and, Bool.and_false]
  simp [validate, hbase]

/-- Witness for C4 (amended): version `0.9` is rejected. -/
theorem claim_C4_witness :
    validate c4Version09 = .error (.validationError "base_message") :=
  claim_C4_amended_unknown_version_rejected c4Version09
    (mkTestHeader "connect_request" "0.9" "sess-4") (.pyStr "0.9")
    (by decide) (by decide) (by decide) (by decide)

/-- Counterexample for C5: the claim says every valid request's session is
reused in the reply; a schema-valid `execute_request` whose header session is
the empty string (a falsy value for `session or str(uuid.uuid4())`) gets a
reply carrying the freshly generated session instead. -/
theorem claim_C5_counterexample :
    validate c5Request = .ok c5Request ∧
    pyGet2 c5Request "header" "session" = .ok (.pyStr "") ∧
    get_execute_reply c5Request 1 "ok" none .pyNone (some "application/python-pickle")
      "fresh-id" "fresh-session" "now" = .ok c5Reply ∧
    pyGet2 c5Reply "header" "session" = .ok (.pyStr "fresh-session") ∧
    (PyValue.pyStr "fresh-session") ≠ .pyStr "" := by
  decide

/-- Claim C5 (amended): for every request whose header fields are accessible
and whose session is truthy, the reply built by `get_execute_reply` (and
likewise by `get_connect_reply`) reuses the request's session, copies the
request header as `parent_header`, swaps `source` and `target`, and carries
the freshly generated `msg_id`; with a falsy session (such as the empty
string, see the counterexample) the fresh session is used instead. -/
theorem claim_C5_amended_reply_header_derivation :
    (∀ (request hdr tgt src sess reqContent cmd data : PyValue)
       (executionCount : Int) (status : String) (error : Option PyValue)
       (mimeType : Option String) (frag : List (String × PyValue))
       (freshMsgId freshSession dateNow : String),
      pyGet request "header" = .ok hdr →
      pyGet hdr "target" = .ok tgt →
      pyGet hdr "source" = .ok src →
      pyGet hdr "session" = .ok sess →
      pyTruthy sess = true →
      ¬ (status = "error" ∧ error = none) →
      pyGet request "content" = .ok reqContent →
      pyGet reqContent "command" = .ok cmd →
      encodeContentList data mimeType = .ok frag →
      ∃ rep, get_execute_reply request executionCount status error data mimeType
          freshMsgId freshSession dateNow = .ok rep ∧
        pyGet2 rep "header" "session" = .ok sess ∧
        pyGet rep "parent_header" = .ok hdr ∧
        pyGet2 rep "header" "source" = .ok tgt ∧
        pyGet2 rep "header" "target" = .ok src ∧
        pyGet2 rep "header" "msg_id" = .ok (.pyStr freshMsgId)) ∧
    (∀ (request hdr tgt src sess ccontent : PyValue)
       (freshMsgId freshSession dateNow : String),
      pyGet request "header" = .ok hdr →
      pyGet hdr "target" = .ok tgt →
      pyGet hdr "source" = .ok src →
      pyGet hdr "session" = .ok sess →
      pyTruthy sess = true →
      ∃ rep, get_connect_reply request ccontent freshMsgId freshSession dateNow = .ok rep ∧
        pyGet2 rep "header" "session" = .ok sess ∧
        pyGet rep "parent_header" = .ok hdr ∧
        pyGet2 rep "header" "source" = .ok tgt ∧
        pyGet2 rep "header" "target" = .ok src ∧
        pyGet2 rep "header" "msg_id" = .ok (.pyStr freshMsgId)) := by
  constructor
  · intro request hdr tgt src sess reqContent cmd data executionCount status error
      mimeType frag freshMsgId freshSession dateNow hH hT hS hSess hTr hStatus hC hCmd hEnc
    simp only [get_execute_reply, hH, hT, hS, hSess, hC, hCmd, hEnc]
    rw [if_neg hStatus]
    have hGH : get_header tgt src "execute_reply" sess freshMsgId freshSession dateNow =
        .pyDict [("msg_id", .pyStr freshMsgId), ("session", sess),
                 ("date", .pyStr dateNow), ("source", tgt), ("target", src),
                 ("msg_type", .pyStr "execute_reply"), ("version", .pyStr "0.3")] := by
      simp only [get_header]
      rw [if_pos hTr]
    rw [hGH]
    exact ⟨_, rfl, rfl, rfl, rfl, rfl, rfl⟩
  · intro request hdr tgt src sess ccontent freshMsgId freshSession dateNow hH hT hS hSess hTr
    simp only [get_connect_reply, hH, hT, hS, hSess]
    have hGH : get_header tgt src "connect_reply" sess freshMsgId freshSession dateNow =
        .pyDict [("msg_id", .pyStr freshMsgId), ("session", sess),
                 ("date", .pyStr dateNow), ("source", tgt), ("target", src),
                 ("msg_type", .pyStr "connect_reply"), ("version", .pyStr "0.3")] := by
      simp only [get_header]
      rw [if_pos hTr]
    rw [hGH]
    exact ⟨_, rfl, rfl, rfl, rfl, rfl, rfl⟩

/-- Witness for C5 (amended): both reply builders, applied to a concrete valid
request with truthy session `sess-6`, reuse the session, copy the parent
header and swap source and target. -/
theorem claim_C5_witness :
    (∃ rep, get_execute_reply c6Request 1 "ok" none .pyNone
        (some "application/python-pickle") "w-id" "w-sess" "w-date" = .ok rep ∧
      pyGet2 rep "header" "session" = .ok (.pyStr "sess-6") ∧
      pyGet rep "parent_header" = .ok (mkTestHeader "execute_request" "0.3" "sess-6") ∧
      pyGet2 rep "header" "source" = .ok (.pyStr "pluginB") ∧
      pyGet2 rep "header" "target" = .ok (.pyStr "clientA") ∧
      pyGet2 rep "header" "msg_id" = .ok (.pyStr "w-id")) ∧
    (∃ rep, get_connect_reply c6Request (.pyDict []) "w-id" "w-sess" "w-date" = .ok rep ∧
      pyGet2 rep "header" "session" = .ok (.pyStr "sess-6") ∧
      pyGet rep "parent_header" = .ok (mkTestHeader "execute_request" "0.3" "sess-6") ∧
      pyGet2 rep "header" "source" = .ok (.pyStr "pluginB") ∧
      pyGet2 rep "header" "target" = .ok (.pyStr "clientA") ∧
      pyGet2 rep "header" "msg_id" = .ok (.pyStr "w-id")) :=
  ⟨claim_C5_amended_reply_header_derivation.1 c6Request
      (mkTestHeader "execute_request" "0.3" "sess-6") (.pyStr "pluginB") (.pyStr "clientA")
      (.pyStr "sess-6") (.pyDict [("command", .pyStr "go")]) (.pyStr "go") .pyNone
      1 "ok" none (some "application/python-pickle") [] "w-id" "w-sess" "w-date"
      (by decide) (by decide) (by decide) (by decide) (by decide)
      (by simp) (by decide) (by decide) (by decide),
   claim_C5_amended_reply_header_derivation.2 c6Request
      (mkTestHeader "execute_request" "0.3" "sess-6") (.pyStr "pluginB") (.pyStr "clientA")
      (.pyStr "sess-6") (.pyDict []) "w-id" "w-sess" "w-date"
      (by decide) (by decide) (by decide) (by decide) (by decide)⟩

/-- Claim C6: `get_execute_reply` with `status='error'` and no error value
fails with `ValueError` for every request whose header is accessible, before
the request's content is even read; with a provided error value it succeeds
(for any status) and stamps `content.error` with the textual representation
of that error. -/
theorem claim_C6_error_status_rules :
    (∀ (request hdr tgt src sess data : PyValue) (executionCount : Int)
       (mimeType : Option String) (freshMsgId freshSession dateNow : String),
      pyGet request "header" = .ok hdr →
      pyGet hdr "target" = .ok tgt →
      pyGet hdr "source" = .ok src →
      pyGet hdr "session" = .ok sess →
      get_execute_reply request executionCount "error" none data mimeType
        freshMsgId freshSession dateNow =
        .error (.valueError "If status is \"error\", `error` must be provided.")) ∧
    (∀ (request hdr tgt src sess reqContent cmd errVal data : PyValue)
       (executionCount : Int) (status : String) (mimeType : Option String)
       (frag : List (String × PyValue)) (freshMsgId freshSession dateNow : String),
      pyGet request "header" = .ok hdr →
      pyGet hdr "target" = .ok tgt →
      pyGet hdr "source" = .ok src →
      pyGet hdr "session" = .ok sess →
      pyGet request "content" = .ok reqContent →
      pyGet reqContent "command" = .ok cmd →
      encodeContentList data mimeType = .ok frag →
      ∃ rep, get_execute_reply request executionCount status (some errVal) data mimeType
          freshMsgId freshSession dateNow = .ok rep ∧
        pyGet2 rep "content" "error" = .ok (.pyStr (pyStrOf errVal))) := by
  constructor
  · intro request hdr tgt src sess data executionCount mimeType
      freshMsgId freshSession dateNow hH hT hS hSess
    simp only [get_execute_reply, hH, hT, hS, hSess]
    rw [if_pos (by simp)]
  · intro request hdr tgt src sess reqContent cmd errVal data executionCount status
      mimeType frag freshMsgId freshSession dateNow hH hT hS hSess hC hCmd hEnc
    simp only [get_execute_reply, hH, hT, hS, hSess, hC, hCmd, hEnc]
    rw [if_neg (by simp)]
    refine ⟨_, rfl, ?_⟩
    rw [pyGet2_reply_content]
    simp only [pyGet, dlookup_dictSet_self]

/-- Witness for C6: on a concrete valid request, `status='error'` with no
error value raises `ValueError`, while a provided error `boom` is stamped
into `content.error`. -/
theorem claim_C6_witness :
    get_execute_reply c6Request 1 "error" none .pyNone
      (some "application/python-pickle") "w-id" "w-sess" "w-date" =
      .error (.valueError "If status is \"error\", `error` must be provided.") ∧
    (∃ rep, get_execute_reply c6Request 1 "ok" (some (.pyStr "boom")) .pyNone
        (some "application/python-pickle") "w-id" "w-sess" "w-date" = .ok rep ∧
      pyGet2 rep "content" "error" = .ok (.pyStr (pyStrOf (.pyStr "boom")))) :=
  ⟨claim_C6_error_status_rules.1 c6Request
      (mkTestHeader "execute_request" "0.3" "sess-6") (.pyStr "pluginB") (.pyStr "clientA")
      (.pyStr "sess-6") .pyNone 1 (some "application/python-pickle") "w-id" "w-sess" "w-date"
      (by decide) (by decide) (by decide) (by decide),
   claim_C6_error_status_rules.2 c6Request
      (mkTestHeader "execute_request" "0.3" "sess-6") (.pyStr "pluginB") (.pyStr "clientA")
      (.pyStr "sess-6") (.pyDict [("command", .pyStr "go")]) (.pyStr "go") (.pyStr "boom")
      .pyNone 1 "ok" (some "application/python-pickle") [] "w-id" "w-sess" "w-date"
      (by decide) (by decide) (by decide) (by decide) (by decide) (by decide) (by decide)⟩

/-- Counterexample for C8: the claim says encoding with an unrecognized
non-`None` format fails rather than producing a fragment; in the code,
encoding data under `application/x-unknown` raises nothing and returns a
fragment with `metadata.mime_type` stamped and the data silently dropped. -/
theorem claim_C8_counterexample :
    encode_content_data (.pyStr "x") (some "application/x-unknown") =
      .ok (.pyDict [("metadata", .pyDict [("mime_type", .pyStr "application/x-unknown")])]) := by
  decide

/-- Claim C8 (amended): decoding a valid, error-free message whose
`content.metadata.mime_type` is outside the supported set fails with the
unrecognized-mime-type `ValueError` whenever data is present; encoding with an
unrecognized non-`None` format does not fail but returns a fragment with only
`metadata.mime_type` set, silently dropping the data. -/
theorem claim_C8_amended_unsupported_format :
    (∀ (message mOk content metadata data : PyValue) (mimeStr : String),
      validate message = .ok mOk →
      pyGet message "content" = .ok content →
      pyAttrGetD content "error" .pyNone = .ok .pyNone →
      pyAttrGetD content "metadata" .pyNone = .ok metadata →
      metadata ≠ .pyNone →
      pyAttrGetD metadata "mime_type" (.pyStr "application/python-pickle") =
        .ok (.pyStr mimeStr) →
      pyAttrGetD content "data" .pyNone = .ok data →
      data ≠ .pyNone →
      mimeStr ≠ "application/python-pickle" →
      mimeStr ≠ "application/x-yaml" →
      mimeStr ≠ "application/json" →
      mimeStr ≠ "application/octet-stream" →
      mimeStr ≠ "text/plain" →
      decode_content_data message =
        .error (.valueError ("Unrecognized mime-type: " ++ mimeStr))) ∧
    (∀ (data : PyValue) (mimeStr : String),
      data ≠ .pyNone →
      mimeStr ≠ "application/python-pickle" →
      mimeStr ≠ "application/x-yaml" →
      mimeStr ≠ "application/octet-stream" →
      mimeStr ≠ "application/json" →
      mimeStr ≠ "text/plain" →
      encode_content_data data (some mimeStr) =
        .ok (.pyDict [("metadata", .pyDict [("mime_type", .pyStr mimeStr)])])) := by
  constructor
  · intro message mOk content metadata data mimeStr hv hc hErr hMeta hMetaNe hMime hData
      hDataNe h1 h2 h3 h4 h5
    simp only [decode_content_data, hv, hc, hErr]
    rw [if_neg (show ¬ (PyValue.pyNone ≠ PyValue.pyNone) from fun hh => hh rfl)]
    simp only [hMeta]
    rw [if_pos hMetaNe]
    simp only [hMime, hData]
    rw [if_neg hDataNe]
    rw [if_neg (by simp [h1])]
    rw [if_neg (by simp [h2])]
    rw [if_neg (by simp [h3])]
    rw [if_neg (by simp [h4, h5])]
    rfl
  · intro data mimeStr hData h1 h2 h3 h4 h5
    simp only [encode_content_data, encodeContentList]
    rw [if_neg hData]
    rw [if_neg (by simp [h1])]
    rw [if_neg (by simp [h2])]
    rw [if_neg (by simp [h3, h4, h5])]
    rfl

/-- Witness for C8 (amended): on a concrete valid message carrying data under
`application/x-unknown`, decoding fails with the unrecognized-mime-type
error, and encoding under `application/x-unknown` returns the metadata-only
fragment. -/
theorem claim_C8_witness :
    decode_content_data c8Message =
      .error (.valueError ("Unrecognized mime-type: " ++ "application/x-unknown")) ∧
    encode_content_data (.pyStr "x") (some "application/x-unknown") =
      .ok (.pyDict [("metadata", .pyDict [("mime_type", .pyStr "application/x-unknown")])]) :=
  ⟨claim_C8_amended_unsupported_format.1 c8Message c8Message c8Content
      (.pyDict [("mime_type", .pyStr "application/x-unknown")]) (.pyStr "zz")
      "application/x-unknown"
      (by decide) (by decide) (by decide) (by decide) (by decide) (by decide)
      (by decide) (by decide) (by decide) (by decide) (by decide) (by decide) (by decide),
   claim_C8_amended_unsupported_format.2 (.pyStr "x") "application/x-unknown"
      (by decide) (by decide) (by decide) (by decide) (by decide) (by decide)⟩

/-- Claim C1: the round-trip contract fails in the code.  Encoding the payload
`{'a': 1}` as JSON places the raw value under `data` with the JSON mime type;
the resulting envelope is schema-valid, but decoding it raises `NameError`
because `schema.py` calls `json.loads` without ever importing `json` — so
`decode(encode(x, json)) = x` does not hold. -/
theorem claim_C1_roundtrip_fails_json :
    encode_content_data c1Payload (some "application/json") =
      .ok (.pyDict [("data", c1Payload),
                    ("metadata", .pyDict [("mime_type", .pyStr "application/json")])]) ∧
    validate c1Message = .ok c1Message ∧
    decode_content_data c1Message = .error (.nameError "json") ∧
    decode_content_data c1Message ≠ .ok c1Payload := by
  decide

/-- Claim C2: each of the four builders produces, from minimally valid
arguments, an envelope accepted by `validate`; removing any field listed as
required in that variant's content schema (`connect_reply`: `command`,
`publish`; `execute_request`: `command`; `execute_reply`: `command`,
`status`, `execution_count`; `connect_request` requires none) makes
`validate` fail. -/
theorem claim_C2_builders_validate :
    validate c2ConnectRequest = .ok c2ConnectRequest ∧
    get_connect_reply c2ConnectRequest c2ConnectReplyContent "crep-id" "crep-sess" "crep-date" =
      .ok c2ConnectReply ∧
    validate c2ConnectReply = .ok c2ConnectReply ∧
    failsValidation (removeContentKey c2ConnectReply "command") = true ∧
    failsValidation (removeContentKey c2ConnectReply "publish") = true ∧
    get_execute_request "clientA" "pluginB" "go" .pyNone (some "application/python-pickle")
      false false "er-id" "er-sess" "er-date" = .ok c2ExecuteRequest ∧
    validate c2ExecuteRequest = .ok c2ExecuteRequest ∧
    failsValidation (removeContentKey c2ExecuteRequest "command") = true ∧
    get_execute_reply c2ExecuteRequest 1 "ok" none .pyNone (some "application/python-pickle")
      "erep-id" "erep-sess" "erep-date" = .ok c2ExecuteReply ∧
    validate c2ExecuteReply = .ok c2ExecuteReply ∧
    failsValidation (removeContentKey c2ExecuteReply "command") = true ∧
    failsValidation (removeContentKey c2ExecuteReply "status") = true ∧
    failsValidation (removeContentKey c2ExecuteReply "execution_count") = true := by
  decide

/-- Claim C9: `encode_content_data` with absent data returns the empty
fragment for every format, and with `None` format places the data without
metadata; but for present data the YAML branch does not place a serialized
value under `data` — it raises `AttributeError`, because the code calls
`yaml.dumps`, which PyYAML does not define. -/
theorem claim_C9_encode_fragment_shape :
    encode_content_data .pyNone (some "application/python-pickle") = .ok (.pyDict []) ∧
    encode_content_data .pyNone (some "application/x-yaml") = .ok (.pyDict []) ∧
    encode_content_data .pyNone (some "application/x-unknown") = .ok (.pyDict []) ∧
    encode_content_data .pyNone none = .ok (.pyDict []) ∧
    encode_content_data (.pyStr "x") none = .ok (.pyDict [("data", .pyStr "x")]) ∧
    encode_content_data (.pyStr "x") (some "text/plain") =
      .ok (.pyDict [("data", .pyStr "x"),
                    ("metadata", .pyDict [("mime_type", .pyStr "text/plain")])]) ∧
    encode_content_data (.pyStr "x") (some "application/x-yaml") =
      .error (.attributeError "module yaml has no attribute dumps") := by
  decide
